import Mathlib

/-!
# Verification of the task-dispatch service (`app/main.py`)

Shallow embedding of the dispatch-and-sandbox core of the service:
the path sandbox guard (`is_safe_path`, `safe_resolve`), the operation
registry (`TASK_MAP`), schema generation (`function_to_schema`,
`get_all_function_schemas`), the dispatcher (`execute_llm_function_call`,
`run_task`), the `/read` endpoint (`read_file`), and the
`count_specific_weekday` operation.

Modelling conventions:
* POSIX paths are modelled as strings; resolution (`Path.resolve`,
  `os.path.join("/", ...)`) is modelled lexically over segment lists on a
  symlink-free filesystem, with repeated separators collapsed.
* String primitives are implemented over `String.data` (lists of
  characters) so that every definition evaluates inside the kernel.
* The filesystem is a finite association list from resolved absolute
  segment lists to file contents.
* `dateutil.parser.parse` is modelled on the ISO `YYYY-MM-DD` subset (the
  date format the service's data files use); any other string is modelled
  as unparseable, matching dateutil's behaviour on non-date text.
* Network interaction (the LLM round trip) is modelled by passing the
  upstream outcome as an explicit argument to `run_task`.
-/

namespace TdsProj

/-! ## String primitives over character lists -/

/-- Split a character list at every occurrence of `sep`, keeping empty
chunks, as Python's `str.split(sep)` does. -/
def splitCharAux (sep : Char) : List Char → List Char → List (List Char)
  | [], acc => [acc.reverse]
  | c :: cs, acc =>
    if c = sep then acc.reverse :: splitCharAux sep cs []
    else splitCharAux sep cs (c :: acc)

/-- Split a POSIX path string into its non-empty segments
(repeated separators collapse, so `"/data//x"` and `"/data/x"` agree). -/
def pathSegments (p : String) : List String :=
  ((splitCharAux '/' p.data []).filter (fun s => s ≠ [])).map String.mk

/-- Whether a path string is absolute (starts with `/`),
as `PurePosixPath.is_absolute` reports it. -/
def isAbsolutePath (p : String) : Bool :=
  match p.data with
  | '/' :: _ => true
  | _ => false

/-- `str.startswith(pre)` on Python strings. -/
def pyStartsWith (s pre : String) : Bool :=
  pre.data.isPrefixOf s.data

/-! ## Path model -/

/-- `os.path.join("/", path)`: an absolute `path` is returned unchanged,
a relative one is anchored at the filesystem root. -/
def joinRoot (p : String) : String :=
  if isAbsolutePath p then p else "/" ++ p

/-- One step of lexical `..`/`.` elimination: `.` is dropped, `..` pops the
last retained segment (a no-op at the root, as in POSIX), anything else is
kept. -/
def normStep (acc : List String) (seg : String) : List String :=
  if seg = "." then acc
  else if seg = ".." then acc.dropLast
  else acc ++ [seg]

/-- Lexically normalise a segment list, eliminating `.` and `..`. -/
def normalizeSegs (segs : List String) : List String :=
  segs.foldl normStep []

/-- `Path(p).resolve()` on an absolute path string `p`, over a symlink-free
filesystem: the lexically normalised segments of `p`. -/
def pyResolve (p : String) : List String :=
  normalizeSegs (pathSegments p)

/-- Resolve a path string against a working directory `cwd` (itself an
absolute path): how the operating system interprets the path when a handler
opens it. -/
def resolveFrom (cwd : String) (p : String) : List String :=
  if isAbsolutePath p then pyResolve p
  else normalizeSegs (pathSegments cwd ++ pathSegments p)

/-- `DATA_DIR.resolve()`: the sandbox root `/data` as resolved segments. -/
def dataSegs : List String := ["data"]

/-! ## Sandbox guard (`is_safe_path`, `safe_resolve`) -/

/-- `is_safe_path(path)` from `app/main.py`: anchor the candidate at `/`
with `os.path.join`, fully resolve it, and test
`resolved.is_relative_to(DATA_DIR.resolve())`.  The Python `try/except`
wrapper is unreachable in the symlink-free model (non-strict `resolve`
does not raise) and is omitted. -/
def is_safe_path (path : String) : Bool :=
  dataSegs.isPrefixOf (pyResolve (joinRoot path))

/-- An `HTTPException` as raised by the service: status code and detail. -/
structure HTTPException where
  status : Nat
  detail : String
deriving DecidableEq, Repr

/-- `safe_resolve(user_path)` from `app/main.py`: raise a 403
`HTTPException` when `is_safe_path` rejects the candidate, otherwise
return `Path(user_path)` — the literal input string, not its resolved
form. -/
def safe_resolve (user_path : String) : Except HTTPException String :=
  if is_safe_path user_path then Except.ok user_path
  else Except.error ⟨403, "Path escapes /data: " ++ user_path⟩

/-- The spec's containment predicate, from its words: the fully resolved
absolute form of the candidate is the sandbox root itself or a strict
descendant of it. -/
def ResolvedWithinRoot (p : String) : Prop :=
  pyResolve (joinRoot p) = dataSegs ∨
    ∃ rest : List String, rest ≠ [] ∧ pyResolve (joinRoot p) = dataSegs ++ rest

/-! ## Operation registry (`TASK_MAP`)

Each entry records the handler's `__name__`, the cleaned docstring (its
short description — none of the 18 docstrings contains a blank line, so the
whole cleaned text is the short description, and none declares a structured
`Args:` section, so `docstring_parser` finds no per-parameter
descriptions), and the parameter list from `inspect.signature` in
declaration order, flagged with whether the Python parameter has a default
value. -/

/-- One registry entry: handler name, docstring, and signature parameters
(`true` marks a parameter that has a default value in Python). -/
structure OperationSpec where
  opName : String
  docString : String
  params : List (String × Bool)
deriving DecidableEq, Repr

/-- `TASK_MAP` from `app/main.py`: the closed name → handler table, in
source order (Python dicts preserve insertion order). -/
def TASK_MAP : List OperationSpec := [
  ⟨"install_and_run_script_if_needed",
   "A1. Install a specified software package (if necessary) and execute a provided script\nwith a given argument to generate required data files.",
   [("package", false), ("script_url", false), ("script_arg", false)]⟩,
  ⟨"format_file_inplace",
   "A2. Format the contents of a specified file using Prettier in-place.",
   [("file_path", false), ("prettier_version", false)]⟩,
  ⟨"count_specific_weekday",
   "A3. Analyze a list of dates from input_file, count occurrences of `weekday` (0=Mon,1=Tue,2=Wed,...),\nwrite the count to output_file.",
   [("input_file", false), ("output_file", false), ("weekday", false)]⟩,
  ⟨"sort_contacts_by_fields",
   "A4. Sort a JSON array of contacts by the given fields in order (e.g. [\"last_name\",\"first_name\"]).",
   [("input_file", false), ("output_file", false), ("sort_fields", false)]⟩,
  ⟨"retrieve_log_lines",
   "A5. Retrieve the specified number of lines_per_file from each of the most recent log files\nin input_dir (by modification time), and write them to output_file (most recent first).",
   [("input_dir", false), ("output_file", false), ("lines_per_file", false), ("max_logs", false)]⟩,
  ⟨"index_files_by_extension",
   "A6. Identify all files with `extension` in `input_dir`. For each file, extract the first line\nstarting with `marker`, create an index mapping \x7brelative_filename: extracted_text\x7d,\nand save as JSON to `output_file`.",
   [("input_dir", false), ("output_file", false), ("extension", false), ("marker", false)]⟩,
  ⟨"extract_info_with_llm",
   "A7. Extract specific info (e.g. sender\x27s email) from the content of a text file\nusing an LLM, write the extracted info to output_file.",
   [("input_file", false), ("output_file", false), ("prompt_text", false)]⟩,
  ⟨"extract_text_from_image",
   "A8. Process an image (e.g. credit card). Could use Tesseract or pass to LLM as base64.\nWe\x27ll demonstrate a Tesseract approach + minimal text post-processing.",
   [("image_path", false), ("output_file", false), ("prompt_text", false)]⟩,
  ⟨"find_most_similar_pair",
   "A9. Analyze a list of textual lines, find the most similar pair.\nWe\x27ll do a naive approach with embeddings from the AI Proxy if available.",
   [("input_file", false), ("output_file", false)]⟩,
  ⟨"query_db_and_write",
   "A10. Query a database (assumed sqlite) for a specific metric, write result to output_file.",
   [("db_file", false), ("output_file", false), ("sql_query", false)]⟩,
  ⟨"fetch_data_from_api",
   "B3. Example: fetch data from an API (GET or POST) and write JSON to output_file.",
   [("url", false), ("output_file", false), ("method", true), ("payload", true)]⟩,
  ⟨"clone_repo_and_commit",
   "B4. Clone a repo into /data/<output_dir>, make a commit with commit_msg.",
   [("repo_url", false), ("output_dir", false), ("commit_msg", false)]⟩,
  ⟨"run_sql_on_db",
   "B5. Run a SQL query on either SQLite or DuckDB, write results to output_file.",
   [("db_file", false), ("output_file", false), ("sql_query", false), ("db_type", true)]⟩,
  ⟨"scrape_website",
   "B6. Download HTML from a site, write to output_file.",
   [("url", false), ("output_file", false)]⟩,
  ⟨"compress_or_resize_image",
   "B7. Example uses Pillow (pip install pillow). Resize to (width,height) and save with \x27quality\x27.",
   [("input_file", false), ("output_file", false), ("width", false), ("height", false), ("quality", true)]⟩,
  ⟨"transcribe_audio",
   "B8. Stub for audio transcription. Could call e.g. Whisper or any speech-to-text engine.\nWe\x27ll just write a placeholder.",
   [("input_file", false), ("output_file", false)]⟩,
  ⟨"convert_md_to_html",
   "B9. Convert .md to HTML with Python markdown or similar.",
   [("input_file", false), ("output_file", false)]⟩,
  ⟨"filter_csv_and_write_json",
   "B10. Filter a CSV by <column>=<value>, write results as JSON.",
   [("input_file", false), ("output_file", false), ("column", false), ("value", false)]⟩]

/-- `TASK_MAP.get(name)`: exact-name lookup in the registry. -/
def TASK_MAP_get (fnName : String) : Option OperationSpec :=
  TASK_MAP.find? (fun op => op.opName == fnName)

/-! ## Schema generation (`function_to_schema`, `get_all_function_schemas`) -/

/-- One property of a generated JSON schema: the parameter name and its
JSON type.  `function_to_schema` declares every field as `(str, ...)`, so
the type is always `"string"`; no per-parameter description is injected
because no handler docstring declares parameters. -/
structure PropertySchema where
  propName : String
  typeStr : String
deriving DecidableEq, Repr

/-- An OpenAI function schema produced by `function_to_schema`. -/
structure FunctionSchema where
  fnName : String
  description : String
  properties : List PropertySchema
  required : List String
deriving DecidableEq, Repr

/-- `function_to_schema(func)` from `app/main.py`: name from `__name__`,
description from the docstring short description, every signature
parameter as a `"string"` property, and `required` listing every property
key. -/
def function_to_schema (op : OperationSpec) : FunctionSchema :=
  { fnName := op.opName
    description := op.docString
    properties := op.params.map (fun p => ⟨p.1, "string"⟩)
    required := op.params.map Prod.fst }

/-- `get_all_function_schemas()` from `app/main.py`: one schema per
`TASK_MAP` entry, in registry order. -/
def get_all_function_schemas : List FunctionSchema :=
  TASK_MAP.map function_to_schema

/-! ## Dispatcher (`execute_llm_function_call`, `run_task`) -/

/-- The `function_call` object of the model's reply: the chosen operation
name and the `arguments` payload after `json.loads` — `none` models a raw
string that is not parseable as JSON (the `json.JSONDecodeError` branch),
`some kvs` the parsed flat string-keyed mapping. -/
structure FnCall where
  fnName : String
  arguments : Option (List (String × String))
deriving DecidableEq, Repr

/-- One entry of `choices` in the model's reply. -/
structure Message where
  function_call : Option FnCall
deriving DecidableEq, Repr

/-- The model's reply as `call_llm_function_call` returns it. -/
structure LLMResponse where
  choices : List Message
deriving DecidableEq, Repr

/-- Why Python's call binding `func(**args)` raises a `TypeError`:
a keyword not in the signature, or required (default-free) parameters
absent from the keyword set.  CPython reports an unexpected keyword before
checking for missing arguments, and reports all missing arguments at
once. -/
inductive BindError
  | unexpectedKeyword (kw : String)
  | missingRequired (names : List String)
deriving DecidableEq, Repr

/-- The keys of `args` that name no parameter of the signature. -/
def unexpectedKeywords (params : List (String × Bool))
    (args : List (String × String)) : List String :=
  (args.filter (fun kv => !(params.any (fun p => p.1 == kv.1)))).map Prod.fst

/-- The default-free parameters of the signature absent from `args`,
in signature order. -/
def missingArguments (params : List (String × Bool))
    (args : List (String × String)) : List String :=
  (params.filter (fun p => !p.2 && !(args.any (fun kv => kv.1 == p.1)))).map Prod.fst

/-- Python's binding of `func(**args)` against the signature `params`:
`ok` exactly when every keyword is a declared parameter and every
default-free parameter is supplied. -/
def bindCall (params : List (String × Bool)) (args : List (String × String)) :
    Except BindError Unit :=
  match unexpectedKeywords params args with
  | kw :: _ => Except.error (BindError.unexpectedKeyword kw)
  | [] =>
    match missingArguments params args with
    | [] => Except.ok ()
    | m :: ms => Except.error (BindError.missingRequired (m :: ms))

/-- The `ValueError`s `execute_llm_function_call` raises before any
handler body runs, in the order the source checks them. -/
inductive ExecError
  | noChoices
  | noFunctionPicked
  | invalidArgumentsJson
  | unknownFunction (fnName : String)
  | argumentMismatch (b : BindError)
deriving DecidableEq, Repr

/-- `execute_llm_function_call(llm_response)` from `app/main.py`, up to
the hand-off to the chosen handler: empty `choices`, a missing
`function_call`, unparseable `arguments` JSON, an unregistered name, and a
`TypeError` at binding each raise a `ValueError`; a successful run returns
the handler name and arguments whose body is then entered.  (The handler
body itself is opaque here; its exceptions are re-raised by the source as
`HTTPException(500)`, a branch none of the dispatch claims exercise.) -/
def execute_llm_function_call (resp : LLMResponse) :
    Except ExecError (String × List (String × String)) :=
  match resp.choices with
  | [] => Except.error ExecError.noChoices
  | msg :: _ =>
    match msg.function_call with
    | none => Except.error ExecError.noFunctionPicked
    | some fc =>
      match fc.arguments with
      | none => Except.error ExecError.invalidArgumentsJson
      | some args =>
        match TASK_MAP_get fc.fnName with
        | none => Except.error (ExecError.unknownFunction fc.fnName)
        | some op =>
          match bindCall op.params args with
          | Except.error b => Except.error (ExecError.argumentMismatch b)
          | Except.ok _ => Except.ok (fc.fnName, args)

/-- How the single round trip of `call_llm_function_call` can fail:
`requests.post(..., timeout=30)` raising `Timeout` or another
network-level `RequestException`, or `raise_for_status()` rejecting a
non-2xx reply.  None of these is caught inside `call_llm_function_call`. -/
inductive UpstreamFailure
  | timeout
  | connectionError
  | httpStatusError (status : Nat)
deriving DecidableEq, Repr

/-- Observable outcome of one `POST /run` call: the HTTP status returned
to the caller, and which handler body (name and arguments) was entered,
`none` when the call short-circuited before any handler ran. -/
structure RunResult where
  httpStatus : Nat
  invoked : Option (String × List (String × String))
deriving DecidableEq, Repr

/-- `run_task(task)` from `app/main.py`, with the upstream round trip
passed in explicitly.  A `RequestException` from
`call_llm_function_call` and a `ValueError` from
`execute_llm_function_call` are not `HTTPException`s, so both fall to the
generic `except Exception` arm, which raises `HTTPException(500)`.  A
successful dispatch enters the handler body (modelled as succeeding) and
returns 200. -/
def run_task (upstream : Except UpstreamFailure LLMResponse) : RunResult :=
  match upstream with
  | Except.error _ => ⟨500, none⟩
  | Except.ok resp =>
    match execute_llm_function_call resp with
    | Except.error _ => ⟨500, none⟩
    | Except.ok inv => ⟨200, some inv⟩

/-! ## Filesystem model and the `/read` endpoint -/

/-- The sandbox filesystem: a finite map from resolved absolute paths
(as segment lists) to file contents.  `os.path.exists`/`os.path.isfile`
are modelled as membership at the resolved path (symlink-free, with every
intermediate directory of a `..` traversal assumed to exist). -/
abbrev FileSystem := List (List String × String)

/-- Content of the file at resolved path `p`, if it exists. -/
def fsLookup (fs : FileSystem) (p : List String) : Option String :=
  (fs.find? (fun e => e.1 == p)).map Prod.snd

/-- `Path.write_text`: create the file or overwrite its content. -/
def fsStore (fs : FileSystem) (p : List String) (content : String) : FileSystem :=
  if fs.any (fun e => e.1 == p) then
    fs.map (fun e => if e.1 == p then (p, content) else e)
  else fs ++ [(p, content)]

/-- `GET /read` (`read_file` in `app/main.py`) as a pure function of the
filesystem: the HTTP status and, on success, the raw file content.  The
source checks, in order: the literal `"/data/"` prefix (403), existence of
the resolved file (404), `is_safe_path` (403), then reads (200). -/
def read_file (fs : FileSystem) (path : String) : Nat × Option String :=
  if !(pyStartsWith path "/data/") then (403, none)
  else
    match fsLookup fs (pyResolve (joinRoot path)) with
    | none => (404, none)
    | some content =>
      if !(is_safe_path path) then (403, none)
      else (200, some content)

/-! ## Side effects of `install_and_run_script_if_needed` -/

/-- A filesystem or process side effect of a handler, with file paths
fully resolved. -/
inductive Effect
  | fsWriteAt (path : List String)
  | fsReadAt (path : List String)
  | execProgram (argv : List String)
deriving DecidableEq, Repr

/-- `script_url.split("/")[-1]`: the last `/`-separated chunk of the URL,
used by `install_and_run_script_if_needed` as the local download name. -/
def local_name (script_url : String) : String :=
  ((splitCharAux '/' script_url.data []).map String.mk).getLastD ""

/-- The side effects of `install_and_run_script_if_needed(package,
script_url, script_arg)`, given the working directory of the server
process: pip-install the package, `curl -o <local_name> <script_url>`
(curl writes `<local_name>` relative to the working directory), then
`python3 <local_name> <script_arg>` (reading and executing the downloaded
script from the working directory).  No argument of this handler passes
through `safe_resolve`. -/
def install_and_run_script_if_needed (cwd package script_url script_arg : String) :
    List Effect :=
  [Effect.execProgram ["python3", "-m", "pip", "install", package],
   Effect.execProgram ["curl", "-o", local_name script_url, script_url],
   Effect.fsWriteAt (resolveFrom cwd (local_name script_url)),
   Effect.fsReadAt (resolveFrom cwd (local_name script_url)),
   Effect.execProgram ["python3", local_name script_url, script_arg]]

/-- Whether an effect touches the filesystem outside the sandbox root. -/
def touchesOutsideSandbox : Effect → Bool
  | Effect.fsWriteAt p => !(dataSegs.isPrefixOf p)
  | Effect.fsReadAt p => !(dataSegs.isPrefixOf p)
  | Effect.execProgram _ => false

/-! ## `count_specific_weekday` -/

/-- The whitespace characters Python's `str.strip()` removes. -/
def isPyWhitespace (c : Char) : Bool :=
  c = ' ' || c = '\t' || c = '\n' || c = '\x0d' || c = '\x0b' || c = '\x0c'

/-- `str.strip()`. -/
def pyStrip (s : String) : String :=
  String.mk (((s.data.dropWhile isPyWhitespace).reverse.dropWhile isPyWhitespace).reverse)

/-- `str.splitlines()`, modelled for LF-separated text: split at `\n`,
with no entry for a final trailing newline. -/
def pySplitlines (s : String) : List String :=
  match s.data with
  | [] => []
  | cs =>
    let parts := (splitCharAux '\n' cs []).map String.mk
    if cs.getLast? = some '\n' then parts.dropLast else parts

/-- The numeric value of a decimal digit character. -/
def digitVal (c : Char) : Option Nat :=
  if '0' ≤ c ∧ c ≤ '9' then some (c.toNat - '0'.toNat) else none

/-- Read a non-empty all-digit character list as a natural number. -/
def digitsToNat (cs : List Char) : Option Nat :=
  if cs = [] then none
  else cs.foldl (fun acc c =>
    match acc, digitVal c with
    | some n, some d => some (n * 10 + d)
    | _, _ => none) (some 0)

/-- Python `int(s)` on a decimal literal: an optional sign followed by
digits (surrounding whitespace and underscore separators are not
modelled). -/
def pyInt (s : String) : Option Int :=
  match s.data with
  | '-' :: cs => (digitsToNat cs).map (fun n => -(n : Int))
  | '+' :: cs => (digitsToNat cs).map (fun n => (n : Int))
  | cs => (digitsToNat cs).map (fun n => (n : Int))

/-- A calendar date. -/
structure CalDate where
  year : Nat
  month : Nat
  day : Nat
deriving DecidableEq, Repr

/-- Gregorian leap-year rule. -/
def isLeapYear (y : Nat) : Bool :=
  (y % 4 = 0 && y % 100 ≠ 0) || y % 400 = 0

/-- Number of days in a month. -/
def daysInMonth (y m : Nat) : Nat :=
  if m = 2 then (if isLeapYear y then 29 else 28)
  else if m = 4 ∨ m = 6 ∨ m = 9 ∨ m = 11 then 30
  else 31

/-- `dateutil.parser.parse`, modelled on the ISO `YYYY-MM-DD` subset (the
date format the service's data files use): a four-digit year, one- or
two-digit month and day, all calendar-valid.  Any other string is
modelled as unparseable, matching dateutil's behaviour on non-date
text. -/
def parseDate (s : String) : Option CalDate :=
  match splitCharAux '-' s.data [] with
  | [ys, ms, ds] =>
    match digitsToNat ys, digitsToNat ms, digitsToNat ds with
    | some y, some m, some d =>
      if ys.length = 4 ∧ 1 ≤ y ∧ (ms.length = 1 ∨ ms.length = 2) ∧
          (ds.length = 1 ∨ ds.length = 2) ∧
          1 ≤ m ∧ m ≤ 12 ∧ 1 ≤ d ∧ d ≤ daysInMonth y m
      then some ⟨y, m, d⟩ else none
    | _, _, _ => none
  | _ => none

/-- Sakamoto's day-of-week table. -/
def sakamotoTable : List Nat := [0, 3, 2, 5, 0, 3, 5, 1, 4, 6, 2, 4]

/-- Python's `date.weekday()`: Monday = 0 … Sunday = 6, computed with
Sakamoto's method (which yields Sunday = 0, shifted by 6). -/
def pyWeekday (dt : CalDate) : Nat :=
  let y := if dt.month < 3 then dt.year - 1 else dt.year
  let t := sakamotoTable.getD (dt.month - 1) 0
  (y + y / 4 - y / 100 + y / 400 + t + dt.day + 6) % 7

/-- A Python exception escaping a handler body. -/
inductive PyError
  | httpException (e : HTTPException)
  | valueError (msg : String)
  | nameError (msg : String)
  | fileNotFound (path : List String)
deriving DecidableEq, Repr

/-- The per-line loop of `count_specific_weekday`: strip each line, skip
empties, parse the rest; a parse failure enters the bare `except` whose
debug `print` references the undefined name `e`, so the handler raises
`NameError` instead of skipping the line. -/
def countWeekdayLoop (weekday : Int) : List String → Except PyError Nat
  | [] => Except.ok 0
  | line :: rest =>
    let stripped := pyStrip line
    if stripped = "" then countWeekdayLoop weekday rest
    else
      match parseDate stripped with
      | some dt =>
        (countWeekdayLoop weekday rest).map
          (fun c => if (pyWeekday dt : Int) = weekday then c + 1 else c)
      | none => Except.error (PyError.nameError "name \x27e\x27 is not defined")

/-- Decimal digit characters of `n`, most significant first
(`fuel ≥ n` guarantees enough division steps). -/
def natToDigits : Nat → Nat → List Char
  | 0, n => [Nat.digitChar n]
  | fuel + 1, n =>
    if n < 10 then [Nat.digitChar n]
    else natToDigits fuel (n / 10) ++ [Nat.digitChar (n % 10)]

/-- Python `str(n)` for a nonnegative count. -/
def pyStrNat (n : Nat) : String := String.mk (natToDigits n n)

/-- `count_specific_weekday(input_file, output_file, weekday)` from
`app/main.py` as a filesystem transformer: convert `weekday` with
`int(...)`, guard both paths with `safe_resolve` (which returns the
literal strings), read the input, run the counting loop, and on success
write the decimal count to the output file.  `cwd` is the server's
working directory, against which the literal `Path` values are opened. -/
def count_specific_weekday (fs : FileSystem) (cwd : String)
    (input_file output_file weekday : String) : Except PyError FileSystem :=
  match pyInt weekday with
  | none =>
    Except.error (PyError.valueError ("invalid literal for int(): " ++ weekday))
  | some w =>
    match safe_resolve input_file with
    | Except.error e => Except.error (PyError.httpException e)
    | Except.ok inp =>
      match safe_resolve output_file with
      | Except.error e => Except.error (PyError.httpException e)
      | Except.ok out =>
        match fsLookup fs (resolveFrom cwd inp) with
        | none => Except.error (PyError.fileNotFound (resolveFrom cwd inp))
        | some content =>
          match countWeekdayLoop w (pySplitlines content) with
          | Except.error e => Except.error e
          | Except.ok count =>
            Except.ok (fsStore fs (resolveFrom cwd out) (pyStrNat count))

/-- Whether a line's stripped text parses as a date falling on
weekday `w`. -/
def lineMatches (w : Int) (l : String) : Bool :=
  match parseDate (pyStrip l) with
  | some dt => decide ((pyWeekday dt : Int) = w)
  | none => false

/-- The number of lines whose stripped text parses as a date falling on
weekday `w` — what the counting loop computes when every non-empty line
parses. -/
def matchingLineCount (w : Int) (lines : List String) : Nat :=
  (lines.filter (lineMatches w)).length

/-! ## Theorems about the sandbox guard -/

/-- The guard's boolean test agrees with the spec's containment predicate:
`is_safe_path` holds exactly when the root-joined, fully resolved candidate
is `/data` or a strict descendant of it. -/
theorem is_safe_path_iff_within (p : String) :
    is_safe_path p = true ↔ ResolvedWithinRoot p := by
  unfold is_safe_path ResolvedWithinRoot
  rw [List.isPrefixOf_iff_prefix]
  constructor
  · rintro ⟨t, ht⟩
    cases t with
    | nil => exact Or.inl (by simpa using ht.symm)
    | cons a as => exact Or.inr ⟨a :: as, by simp, ht.symm⟩
  · rintro (h | ⟨rest, hne, h⟩)
    · exact ⟨[], by simp [h]⟩
    · exact ⟨rest, h.symm⟩

/-- C1: for every candidate path string `p`, the sandbox guard's
`safe_resolve p` succeeds if and only if the fully resolved absolute form
of `p` (anchored at `/` as `os.path.join("/", p)` does, with `..` and
relative segments eliminated, over a symlink-free filesystem) is the
sandbox root `/data` or a descendant of it; in particular
`"/data/../etc/passwd"` is rejected and `"/data/sub/file.txt"` is
accepted. -/
theorem C1_resolve_iff_within_sandbox :
    (∀ p : String, (safe_resolve p).isOk = true ↔ ResolvedWithinRoot p) ∧
    (safe_resolve "/data/../etc/passwd").isOk = false ∧
    safe_resolve "/data/sub/file.txt" = Except.ok "/data/sub/file.txt" := by
  refine ⟨fun p => ?_, rfl, rfl⟩
  rw [← is_safe_path_iff_within]
  cases h : is_safe_path p <;> simp [safe_resolve, h, Except.isOk, Except.toBool]

/-- C10: `safe_resolve` returns `Path(p)` built from the literal input
string, not its fully resolved absolute form: every guard-accepted
candidate is returned verbatim. -/
theorem C10_safe_resolve_returns_literal (p : String)
    (h : is_safe_path p = true) :
    safe_resolve p = Except.ok p := by
  simp [safe_resolve, h]

/-- Witness for C10 at the relative candidate `"data/sub/file.txt"`: the
guard accepts it (its root-joined resolution lies inside `/data`),
`safe_resolve` returns the literal relative string, and a handler opening
that relative path from working directory `/app` reads
`/app/data/sub/file.txt` — a path outside the sandbox root. -/
theorem C10_safe_resolve_returns_literal_witness :
    is_safe_path "data/sub/file.txt" = true ∧
    safe_resolve "data/sub/file.txt" = Except.ok "data/sub/file.txt" ∧
    isAbsolutePath "data/sub/file.txt" = false ∧
    resolveFrom "/app" "data/sub/file.txt" = ["app", "data", "sub", "file.txt"] ∧
    dataSegs.isPrefixOf (resolveFrom "/app" "data/sub/file.txt") = false :=
  ⟨rfl, C10_safe_resolve_returns_literal "data/sub/file.txt" rfl, rfl, rfl, rfl⟩

/-! ## Theorems about schema generation -/

/-- C7: schema generation is pure and deterministic — two generations from
the unchanged registry are identical (in this pure embedding,
definitionally so), the schema list names the 18 registered operations in
registry order, and each schema lists every handler parameter as a
required `"string"` field. -/
theorem C7_schema_generation_deterministic :
    get_all_function_schemas = get_all_function_schemas ∧
    get_all_function_schemas.map FunctionSchema.fnName =
      ["install_and_run_script_if_needed", "format_file_inplace",
       "count_specific_weekday", "sort_contacts_by_fields",
       "retrieve_log_lines", "index_files_by_extension",
       "extract_info_with_llm", "extract_text_from_image",
       "find_most_similar_pair", "query_db_and_write",
       "fetch_data_from_api", "clone_repo_and_commit", "run_sql_on_db",
       "scrape_website", "compress_or_resize_image", "transcribe_audio",
       "convert_md_to_html", "filter_csv_and_write_json"] ∧
    (get_all_function_schemas.all (fun s =>
      s.required == s.properties.map PropertySchema.propName &&
      s.properties.all (fun pr => pr.typeStr == "string"))) = true :=
  ⟨rfl, rfl, rfl⟩

/-! ## Theorems about the dispatcher -/

/-- Counterexample to C3 as stated: the model choosing the unregistered
operation name `"delete_everything"` makes `run_task` answer HTTP 500 —
the `ValueError` falls to the generic `except Exception` arm — not the
claimed 422, though indeed no handler is invoked. -/
theorem C3_counterexample_status_500_not_422 :
    TASK_MAP_get "delete_everything" = none ∧
    run_task (Except.ok ⟨[⟨some ⟨"delete_everything", some []⟩⟩]⟩) = ⟨500, none⟩ ∧
    (500 : Nat) ≠ 422 :=
  ⟨rfl, rfl, by decide⟩

/-- C3 amended: for every model decision whose operation name is not in
the registry, `execute_llm_function_call` fails with the
`"No function named ..."` `ValueError` and no handler is invoked (zero
side effects); `run_task` reports the failure as HTTP 500. -/
theorem C3_unknown_operation_rejected (msgs : List Message) (fc : FnCall)
    (args : List (String × String))
    (hargs : fc.arguments = some args)
    (hunk : TASK_MAP_get fc.fnName = none) :
    execute_llm_function_call ⟨⟨some fc⟩ :: msgs⟩ =
      Except.error (ExecError.unknownFunction fc.fnName) ∧
    run_task (Except.ok ⟨⟨some fc⟩ :: msgs⟩) = ⟨500, none⟩ := by
  have h1 : execute_llm_function_call ⟨⟨some fc⟩ :: msgs⟩ =
      Except.error (ExecError.unknownFunction fc.fnName) := by
    simp [execute_llm_function_call, hargs, hunk]
  exact ⟨h1, by simp [run_task, h1]⟩

/-- Witness for the amended C3 at the unregistered name
`"delete_everything"` with an empty argument object. -/
theorem C3_unknown_operation_rejected_witness :
    execute_llm_function_call ⟨[⟨some ⟨"delete_everything", some []⟩⟩]⟩ =
      Except.error (ExecError.unknownFunction "delete_everything") ∧
    run_task (Except.ok ⟨[⟨some ⟨"delete_everything", some []⟩⟩]⟩) = ⟨500, none⟩ :=
  C3_unknown_operation_rejected [] ⟨"delete_everything", some []⟩ [] rfl rfl

/-- Counterexample to C4 as stated: omitting the required `"weekday"`
argument of the registered operation `count_specific_weekday` makes
`run_task` answer HTTP 500 — the `TypeError` raised at call binding is
re-raised as a generic `"Argument mismatch"` `ValueError` — not the
claimed 422 `MissingArgument`. -/
theorem C4_counterexample_status_500_not_422 :
    run_task (Except.ok ⟨[⟨some ⟨"count_specific_weekday",
        some [("input_file", "/data/dates.txt"),
          ("output_file", "/data/out.txt")]⟩⟩]⟩) = ⟨500, none⟩ ∧
    (500 : Nat) ≠ 422 :=
  ⟨rfl, by decide⟩

/-- C4 amended: for every model decision naming a registered operation
whose argument object introduces no unexpected keyword but omits a
default-free parameter of the handler's signature, the call fails at
Python's argument binding — a `TypeError` naming the missing parameters,
re-raised as the `"Argument mismatch"` `ValueError` — the handler body is
never entered, and `run_task` reports HTTP 500.  (Parameters with Python
defaults, such as `method` of `fetch_data_from_api`, are schema-required
yet may be omitted without any error — a further divergence from the
claim as stated.) -/
theorem C4_missing_argument_rejected (msgs : List Message) (fc : FnCall)
    (args : List (String × String)) (op : OperationSpec) (pn : String)
    (hargs : fc.arguments = some args)
    (hget : TASK_MAP_get fc.fnName = some op)
    (hnounexp : unexpectedKeywords op.params args = [])
    (hmiss : pn ∈ missingArguments op.params args) :
    execute_llm_function_call ⟨⟨some fc⟩ :: msgs⟩ =
      Except.error (ExecError.argumentMismatch
        (BindError.missingRequired (missingArguments op.params args))) ∧
    run_task (Except.ok ⟨⟨some fc⟩ :: msgs⟩) = ⟨500, none⟩ := by
  cases hm : missingArguments op.params args with
  | nil => rw [hm] at hmiss; exact absurd hmiss (List.not_mem_nil pn)
  | cons m ms =>
    have h1 : execute_llm_function_call ⟨⟨some fc⟩ :: msgs⟩ =
        Except.error (ExecError.argumentMismatch
          (BindError.missingRequired (m :: ms))) := by
      simp [execute_llm_function_call, hargs, hget, bindCall, hnounexp, hm]
    exact ⟨h1, by simp [run_task, h1]⟩

/-- Witness for the amended C4: `count_specific_weekday` invoked without
its `"weekday"` argument; the binding error names the missing field. -/
theorem C4_missing_argument_rejected_witness :
    execute_llm_function_call ⟨[⟨some ⟨"count_specific_weekday",
        some [("input_file", "/data/dates.txt"),
          ("output_file", "/data/out.txt")]⟩⟩]⟩ =
      Except.error (ExecError.argumentMismatch
        (BindError.missingRequired ["weekday"])) ∧
    run_task (Except.ok ⟨[⟨some ⟨"count_specific_weekday",
        some [("input_file", "/data/dates.txt"),
          ("output_file", "/data/out.txt")]⟩⟩]⟩) = ⟨500, none⟩ :=
  C4_missing_argument_rejected []
    ⟨"count_specific_weekday",
      some [("input_file", "/data/dates.txt"), ("output_file", "/data/out.txt")]⟩
    [("input_file", "/data/dates.txt"), ("output_file", "/data/out.txt")]
    ((TASK_MAP_get "count_specific_weekday").getD ⟨"", "", []⟩)
    "weekday" rfl rfl rfl (by decide)

/-- Counterexample to C5 as stated: when the model round trip times out,
the caller receives HTTP 500 — the `requests` `Timeout` propagates out of
`call_llm_function_call` into `run_task`'s generic `except Exception`
arm — not the claimed 503-equivalent `UpstreamError`. -/
theorem C5_counterexample_status_500_not_503 :
    run_task (Except.error UpstreamFailure.timeout) = ⟨500, none⟩ ∧
    (500 : Nat) ≠ 503 :=
  ⟨rfl, by decide⟩

/-- C5 amended: for every failure of the single model round trip —
timeout, network-level error, or non-2xx reply — the caller receives a
generic HTTP 500 and no operation handler is invoked. -/
theorem C5_upstream_failure_yields_500 (f : UpstreamFailure) :
    run_task (Except.error f) = ⟨500, none⟩ :=
  rfl

/-! ## Theorems about sandbox confinement of the registered operations -/

/-- C2 (a bug the code's own B1/B2 comment block contradicts): the
registered operation `install_and_run_script_if_needed`, run from working
directory `/app` with an arbitrary script URL, writes the downloaded
script to `/app/gen.py` — a filesystem write outside the sandbox root
`/data`, performed without any `safe_resolve` check (and the downloaded
script is then executed). -/
theorem C2_sandbox_confinement_violated :
    "install_and_run_script_if_needed" ∈ TASK_MAP.map OperationSpec.opName ∧
    Effect.fsWriteAt ["app", "gen.py"] ∈
      install_and_run_script_if_needed "/app" "requests"
        "https://example.com/gen.py" "user@example.com" ∧
    touchesOutsideSandbox (Effect.fsWriteAt ["app", "gen.py"]) = true := by
  refine ⟨by decide, ?_, rfl⟩
  show Effect.fsWriteAt ["app", "gen.py"] ∈
    install_and_run_script_if_needed "/app" "requests"
      "https://example.com/gen.py" "user@example.com"
  decide

/-! ## Theorems about the `/read` endpoint -/

/-- Counterexample to C6 as stated: with the sandbox holding only
`/data/a.txt`, the request path `"/data/../etc/nope"` resolves outside
the sandbox, yet the response status is 404, not the claimed 403 — the
existence check precedes the sandbox check in `read_file`. -/
theorem C6_counterexample_outside_path_gets_404 :
    read_file [(["data", "a.txt"], "hello")] "/data/../etc/nope" = (404, none) ∧
    ¬ ResolvedWithinRoot "/data/../etc/nope" ∧
    (404 : Nat) ≠ 403 := by
  refine ⟨rfl, ?_, by decide⟩
  rw [← is_safe_path_iff_within]
  decide

/-- C6 amended: for every filesystem and request path `p`, `GET /read`
answers 403 when `p` does not literally start with `"/data/"`; otherwise
404 when the resolved path names no existing file — even when it lies
outside the sandbox; otherwise 403 when the resolved path lies outside
the sandbox; otherwise 200 with the file's raw content.  The endpoint is
a pure function of the filesystem, so it has no side effects. -/
theorem C6_read_endpoint_branches (fs : FileSystem) (p : String) :
    (pyStartsWith p "/data/" = false → read_file fs p = (403, none)) ∧
    (pyStartsWith p "/data/" = true →
      fsLookup fs (pyResolve (joinRoot p)) = none →
      read_file fs p = (404, none)) ∧
    (∀ c, pyStartsWith p "/data/" = true →
      fsLookup fs (pyResolve (joinRoot p)) = some c →
      ¬ ResolvedWithinRoot p → read_file fs p = (403, none)) ∧
    (∀ c, pyStartsWith p "/data/" = true →
      fsLookup fs (pyResolve (joinRoot p)) = some c →
      ResolvedWithinRoot p → read_file fs p = (200, some c)) := by
  refine ⟨fun h => ?_, fun h hnone => ?_, fun c h hsome hout => ?_,
    fun c h hsome hin => ?_⟩
  · simp [read_file, h]
  · simp [read_file, h, hnone]
  · have hsafe : is_safe_path p = false := by
      rw [← Bool.not_eq_true, is_safe_path_iff_within]; exact hout
    simp [read_file, h, hsome, hsafe]
  · have hsafe : is_safe_path p = true := (is_safe_path_iff_within p).mpr hin
    simp [read_file, h, hsome, hsafe]

/-- Witness for the amended C6, exercising the 200 branch: a file inside
the sandbox is served with its raw content. -/
theorem C6_read_endpoint_branches_witness :
    read_file [(["data", "a.txt"], "hello")] "/data/a.txt" = (200, some "hello") :=
  (C6_read_endpoint_branches [(["data", "a.txt"], "hello")] "/data/a.txt").2.2.2
    "hello" rfl rfl (Or.inr ⟨["a.txt"], by decide, rfl⟩)

/-! ## Theorems about `count_specific_weekday` -/

/-- Splitting off the head of the matching-line count. -/
theorem matchingLineCount_cons (w : Int) (a : String) (rest : List String) :
    matchingLineCount w (a :: rest) =
      (if lineMatches w a = true then matchingLineCount w rest + 1
       else matchingLineCount w rest) := by
  unfold matchingLineCount
  rw [List.filter_cons]
  by_cases h : lineMatches w a = true <;> simp [h]

/-- When every non-empty stripped line parses as a date, the counting
loop succeeds and returns the number of weekday-matching lines. -/
theorem countWeekdayLoop_ok (w : Int) (lines : List String)
    (h : ∀ l ∈ lines, pyStrip l = "" ∨ (parseDate (pyStrip l)).isSome = true) :
    countWeekdayLoop w lines = Except.ok (matchingLineCount w lines) := by
  induction lines with
  | nil => rfl
  | cons a rest ih =>
    have hrest : ∀ l ∈ rest, pyStrip l = "" ∨ (parseDate (pyStrip l)).isSome = true :=
      fun l hl => h l (List.mem_cons_of_mem a hl)
    have ha := h a (List.mem_cons_self a rest)
    rw [matchingLineCount_cons]
    by_cases hs : pyStrip a = ""
    · have hm : lineMatches w a = false := by
        unfold lineMatches; rw [hs]; exact rfl
      rw [hm]
      simp only [Bool.false_eq_true, if_neg, not_false_iff]
      have hstep : countWeekdayLoop w (a :: rest) = countWeekdayLoop w rest := by
        simp only [countWeekdayLoop]
        rw [if_pos hs]
      rw [hstep]
      exact ih hrest
    · have hsome : (parseDate (pyStrip a)).isSome = true := ha.resolve_left hs
      obtain ⟨dt, hdt⟩ := Option.isSome_iff_exists.mp hsome
      have hm : lineMatches w a = decide ((pyWeekday dt : Int) = w) := by
        unfold lineMatches; rw [hdt]
      have hstep : countWeekdayLoop w (a :: rest) =
          (countWeekdayLoop w rest).map
            (fun c => if (pyWeekday dt : Int) = w then c + 1 else c) := by
        simp only [countWeekdayLoop]
        rw [if_neg hs, hdt]
      rw [hstep, ih hrest, hm]
      by_cases hw : (pyWeekday dt : Int) = w
      · simp [hw, Except.map]
      · simp [hw, Except.map]

/-- Any non-empty unparseable line makes the counting loop raise the
`NameError` of the bare `except` branch. -/
theorem countWeekdayLoop_err (w : Int) (lines : List String)
    (h : ∃ l ∈ lines, pyStrip l ≠ "" ∧ parseDate (pyStrip l) = none) :
    countWeekdayLoop w lines =
      Except.error (PyError.nameError "name \x27e\x27 is not defined") := by
  induction lines with
  | nil => simp at h
  | cons a rest ih =>
    obtain ⟨l, hl, hne, hp⟩ := h
    rcases List.mem_cons.mp hl with rfl | hl
    · simp only [countWeekdayLoop]
      rw [if_neg hne, hp]
    · have herr := ih ⟨l, hl, hne, hp⟩
      by_cases hs : pyStrip a = ""
      · simp only [countWeekdayLoop]
        rw [if_pos hs]
        exact herr
      · cases hdt : parseDate (pyStrip a) with
        | none =>
          simp only [countWeekdayLoop]
          rw [if_neg hs, hdt]
        | some dt =>
          simp only [countWeekdayLoop]
          rw [if_neg hs, hdt, herr]
          rfl

/-- Counterexample to C8 as stated: a sandbox-contained 7-line input
holding exactly 2 Sunday dates, one other line being no date at all: the
operation raises `NameError` (the bare `except` block references the
undefined name `e`) instead of writing the Sunday count `"2"`. -/
theorem C8_counterexample_unparseable_line_raises :
    count_specific_weekday [(["data", "dates.txt"],
        "2025-01-05\nnot-a-date\n2025-01-07\n2025-01-08\n2025-01-09\n2025-01-10\n2025-01-12")]
      "/app" "/data/dates.txt" "/data/out.txt" "6" =
      Except.error (PyError.nameError "name \x27e\x27 is not defined") ∧
    (pySplitlines
        "2025-01-05\nnot-a-date\n2025-01-07\n2025-01-08\n2025-01-09\n2025-01-10\n2025-01-12").length = 7 ∧
    matchingLineCount 6 (pySplitlines
        "2025-01-05\nnot-a-date\n2025-01-07\n2025-01-08\n2025-01-09\n2025-01-10\n2025-01-12") = 2 :=
  ⟨rfl, rfl, rfl⟩

/-- C8 amended: the weekday-count operation, given the sandbox-contained
paths `/data/dates.txt` and `/data/out.txt` and weekday `"6"`, writes the
decimal count of input lines that parse as dates falling on a Sunday —
provided every non-empty line of the input parses as a date (one
unparseable line makes it raise `NameError` instead, see the
counterexample). -/
theorem C8_weekday_count_writes_sunday_count (fs : FileSystem) (content : String)
    (hread : fsLookup fs ["data", "dates.txt"] = some content)
    (hparse : ∀ l ∈ pySplitlines content,
      pyStrip l = "" ∨ (parseDate (pyStrip l)).isSome = true) :
    count_specific_weekday fs "/app" "/data/dates.txt" "/data/out.txt" "6" =
      Except.ok (fsStore fs ["data", "out.txt"]
        (pyStrNat (matchingLineCount 6 (pySplitlines content)))) := by
  have hloop := countWeekdayLoop_ok 6 (pySplitlines content) hparse
  have h1 : count_specific_weekday fs "/app" "/data/dates.txt" "/data/out.txt" "6" =
      match fsLookup fs ["data", "dates.txt"] with
      | none => Except.error (PyError.fileNotFound ["data", "dates.txt"])
      | some content =>
        match countWeekdayLoop 6 (pySplitlines content) with
        | Except.error e => Except.error e
        | Except.ok count =>
          Except.ok (fsStore fs ["data", "out.txt"] (pyStrNat count)) := rfl
  rw [h1]
  simp only [hread, hloop]

/-- Witness for the amended C8: a 7-line input of valid dates with
exactly 2 Sundays (2025-01-05 and 2025-01-12); the operation writes the
string `"2"` to `/data/out.txt`. -/
theorem C8_weekday_count_writes_sunday_count_witness :
    count_specific_weekday [(["data", "dates.txt"],
        "2025-01-05\n2025-01-06\n2025-01-07\n2025-01-08\n2025-01-09\n2025-01-10\n2025-01-12")]
      "/app" "/data/dates.txt" "/data/out.txt" "6" =
      Except.ok [(["data", "dates.txt"],
        "2025-01-05\n2025-01-06\n2025-01-07\n2025-01-08\n2025-01-09\n2025-01-10\n2025-01-12"),
        (["data", "out.txt"], "2")] ∧
    (pySplitlines
        "2025-01-05\n2025-01-06\n2025-01-07\n2025-01-08\n2025-01-09\n2025-01-10\n2025-01-12").length = 7 :=
  ⟨C8_weekday_count_writes_sunday_count
    [(["data", "dates.txt"],
      "2025-01-05\n2025-01-06\n2025-01-07\n2025-01-08\n2025-01-09\n2025-01-10\n2025-01-12")]
    "2025-01-05\n2025-01-06\n2025-01-07\n2025-01-08\n2025-01-09\n2025-01-10\n2025-01-12"
    rfl (by decide), rfl⟩

/-- C9: for every guard-accepted invocation whose input file contains at
least one non-empty line that cannot be parsed as a date,
`count_specific_weekday` raises `NameError` — the bare `except` block's
debug `print` references the undefined name `e` — before reaching
`out.write_text`, so the output file is left unwritten (the error result
carries no filesystem update) and the parse-error branch never silently
skips a line as its comment claims. -/
theorem C9_parse_error_raises_nameerror (fs : FileSystem)
    (cwd input_file output_file weekday : String) (w : Int) (content : String)
    (hw : pyInt weekday = some w)
    (hin : is_safe_path input_file = true)
    (hout : is_safe_path output_file = true)
    (hread : fsLookup fs (resolveFrom cwd input_file) = some content)
    (hbad : ∃ l ∈ pySplitlines content,
      pyStrip l ≠ "" ∧ parseDate (pyStrip l) = none) :
    count_specific_weekday fs cwd input_file output_file weekday =
      Except.error (PyError.nameError "name \x27e\x27 is not defined") := by
  have hloop := countWeekdayLoop_err w (pySplitlines content) hbad
  simp only [count_specific_weekday, hw, safe_resolve, hin, if_pos, hout,
    hread, hloop]

/-- Witness for C9: an input whose only line is `"oops"`; the operation
raises `NameError` instead of writing a count. -/
theorem C9_parse_error_raises_nameerror_witness :
    count_specific_weekday [(["data", "d.txt"], "oops\n")] "/"
      "/data/d.txt" "/data/o.txt" "6" =
      Except.error (PyError.nameError "name \x27e\x27 is not defined") :=
  C9_parse_error_raises_nameerror [(["data", "d.txt"], "oops\n")] "/"
    "/data/d.txt" "/data/o.txt" "6" 6 "oops\n" rfl rfl rfl rfl
    ⟨"oops", by decide, by decide, rfl⟩

end TdsProj
